import Mathlib

/-
  Verification of the python-libzim bridge layer (src/libzim/libwrapper.{h,cpp},
  src/libzim/lib.{h,cxx}).

  The embedding models:
  * `comp_from_int` (libwrapper.cpp) — the integer-to-compression table;
  * the typed call dispatcher `call_method_on_obj` (libwrapper.cpp) and the
    older `ZimArticleWrapper::callCythonReturnString` (lib.cxx) — a Python
    object's method behaviour is modelled as a function from method name and
    internal object state to (marshalled value, error message, next state),
    where an empty error message means "no error signal" (this is exactly the
    protocol of the `*_cy_call_fct` helpers declared by the source: they fill
    the `error` out-parameter with the Python error text, empty on success);
  * the writer-side adapters (`WriterItemWrapper::getIndexData`,
    `ContentProviderWrapper::getSize/feed`);
  * the reader-side `Wrapper<Base>` value wrapper and its FORWARD-generated
    accessors — the null internal pointer is modelled by `Option`;
  * the `ObjWrapper` lifetime discipline (construction, destruction, move
    construction, move assignment) over an explicit reference-count state
    `RefCounts : PyObjId -> Nat`; exceptions thrown by the C++ code are
    modelled by `Except String` carrying the exception message.
-/

namespace Libzim

/-- Models the `zim::Compression` enumeration used by the bridge
(values referenced by the source: None and Zstd; Lzma kept for the full
documented enumerated set). -/
inductive Compression where
  | none
  | lzma
  | zstd
deriving DecidableEq

/-- Models `comp_from_int` (libwrapper.cpp): a switch with `case 0` returning
None, `case 1` returning Zstd, and a `default` returning None. -/
def comp_from_int (compValue : Int) : Compression :=
  if compValue = 0 then Compression.none
  else if compValue = 1 then Compression.zstd
  else Compression.none

/-- Behaviour of one Python object's methods as seen through one of the
cython `*_cy_call_fct` helpers: given a method name and the object's internal
state, it yields the marshalled return value, the error-message out-parameter
(empty string means no Python error was raised), and the next internal state. -/
abbrev PyBehavior (σ α : Type) : Type := String → σ → (α × String) × σ

/-- Models `call_method_on_obj` (libwrapper.cpp): if the PyObject pointer is
null, throw `runtime_error("Python object not set")`; otherwise perform the
dynamic call and, if the error out-parameter is non-empty, throw
`runtime_error(error)`, else return the marshalled value. The thrown
exception is modelled by `Except.error` carrying the exception message. -/
def call_method_on_obj {σ α : Type} (obj : Option (PyBehavior σ α))
    (methodName : String) (st : σ) : Except String α × σ :=
  match obj with
  | Option.none => (Except.error "Python object not set", st)
  | Option.some b =>
      let r := b methodName st
      if r.1.2 = "" then (Except.ok r.1.1, r.2) else (Except.error r.1.2, r.2)

/-- Models the `ZimArticleWrapper` of lib.cxx for dispatch purposes: it holds
a possibly-null PyObject, seen through `string_cy_call_fct` as its
string-returning method behaviour. -/
structure ZimArticleWrapper (σ : Type) where
  m_obj : Option (PyBehavior σ String)

/-- Models `ZimArticleWrapper::callCythonReturnString` (lib.cxx): null check
throwing `runtime_error("Python object not set")`, then the cython call, then
`runtime_error(error)` if the error out-parameter is non-empty. -/
def ZimArticleWrapper.callCythonReturnString {σ : Type} (w : ZimArticleWrapper σ)
    (methodName : String) (st : σ) : Except String String × σ :=
  match w.m_obj with
  | Option.none => (Except.error "Python object not set", st)
  | Option.some b =>
      let r := b methodName st
      if r.1.2 = "" then (Except.ok r.1.1, r.2) else (Except.error r.1.2, r.2)

/-- Models `std::shared_ptr<zim::writer::IndexData>` values as the bridge can
produce them: either the value returned by the engine's own base-class
`zim::writer::Item::getIndexData()` (the archive engine is external, so its
default is a single abstract value), or a pointer marshalled from the Python
object by `indexdata_cy_call_fct`. -/
inductive IndexDataPtr where
  | engineDefault
  | fromPy (id : Nat)
deriving DecidableEq

/-- Models the Python object held by a `WriterItemWrapper`, as seen through
the cython helpers the source uses in `getIndexData`: `obj_has_attribute`,
`method_is_none`, and the typed dispatch `indexdata_cy_call_fct`. -/
structure PyWriterItemObj (σ : Type) where
  obj_has_attribute : String → Bool
  method_is_none : String → Bool
  indexdata_cy_call_fct : PyBehavior σ IndexDataPtr

/-- Models `WriterItemWrapper::getIndexData` (libwrapper.cpp): if the held
object has no `get_indexdata` attribute, return the base-class
`zim::writer::Item::getIndexData()`; if the attribute is the None sentinel,
likewise; otherwise dispatch `get_indexdata` through the typed call
dispatcher. The held object is the one the adapter was constructed from. -/
def WriterItemWrapper.getIndexData {σ : Type} (obj : PyWriterItemObj σ)
    (st : σ) : Except String IndexDataPtr × σ :=
  if !obj.obj_has_attribute "get_indexdata" then
    (Except.ok IndexDataPtr.engineDefault, st)
  else if obj.method_is_none "get_indexdata" then
    (Except.ok IndexDataPtr.engineDefault, st)
  else
    call_method_on_obj (Option.some obj.indexdata_cy_call_fct) "get_indexdata" st

/-- Models the Python object held by a `ContentProviderWrapper`, seen through
the two cython helpers the adapter uses: `uint64_cy_call_fct` (for
`get_size`) and `blob_cy_call_fct` (for `feed`; a `zim::Blob` is modelled by
its byte string). Both share the object's internal state. -/
structure PyContentProviderObj (σ : Type) where
  uint64_cy_call_fct : PyBehavior σ Nat
  blob_cy_call_fct : PyBehavior σ String

/-- Models `ContentProviderWrapper` (libwrapper.h): a writer-side adapter
holding a possibly-null PyObject. -/
structure ContentProviderWrapper (σ : Type) where
  m_obj : Option (PyContentProviderObj σ)

/-- Models `ContentProviderWrapper::getSize` (libwrapper.cpp):
`call_method_on_obj<uint64_t>(m_obj, "get_size")`. -/
def ContentProviderWrapper.getSize {σ : Type} (w : ContentProviderWrapper σ)
    (st : σ) : Except String Nat × σ :=
  call_method_on_obj (w.m_obj.map PyContentProviderObj.uint64_cy_call_fct) "get_size" st

/-- Models `ContentProviderWrapper::feed` (libwrapper.cpp):
`call_method_on_obj<zim::Blob>(m_obj, "feed")`. -/
def ContentProviderWrapper.feed {σ : Type} (w : ContentProviderWrapper σ)
    (st : σ) : Except String String × σ :=
  call_method_on_obj (w.m_obj.map PyContentProviderObj.blob_cy_call_fct) "feed" st

/-- A well-behaved content-provider dynamic object whose internal state is
the number of `feed` calls already made: `get_size` answers `size` without
touching the state, and the k-th `feed` call yields the k-th chunk of
`chunks` (the empty string once the list is exhausted) and advances the
state. Neither method raises a Python error. -/
def chunkProvider (chunks : List String) (size : Nat) : PyContentProviderObj Nat :=
  { uint64_cy_call_fct := fun name k =>
      ((if name = "get_size" then size else 0, ""), k)
    blob_cy_call_fct := fun name k =>
      if name = "feed" then ((chunks.getD k "", ""), k + 1) else (("", ""), k) }

/-- Runs `n` successive `feed()` calls of the adapter, collecting the results
in call order together with the dynamic object's final state. -/
def feedRun {σ : Type} (w : ContentProviderWrapper σ) :
    Nat → σ → List (Except String String) × σ
  | 0, st => ([], st)
  | n + 1, st =>
      let r := ContentProviderWrapper.feed w st
      let rest := feedRun w n r.2
      (r.1 :: rest.1, rest.2)

/-
  Reader-side value wrapping (libwrapper.h).

  The archive engine's value types (`zim::Entry`, `zim::Item`, `zim::Blob`,
  `zim::Archive`) are external; each is modelled as a record whose fields
  give the results of the accessors the wrapper forwards
  (`get_redirect_entry` is omitted: it would make the engine model
  recursive and no claim mentions it).
-/

namespace zim

/-- Models a `zim::Blob` engine value by the results of its forwarded
accessors: the data pointer (an address) and the size. -/
structure Blob where
  dataAddr : Nat
  size : Nat
deriving DecidableEq

/-- Models a `zim::Item` engine value by the results of its forwarded
accessors. -/
structure Item where
  get_title : String
  get_path : String
  get_mimetype : String
  get_data : Blob
  get_size : Nat
  get_index : Nat
deriving DecidableEq

/-- Models a `zim::Entry` engine value by the results of its forwarded
accessors. -/
structure Entry where
  get_title : String
  get_path : String
  is_redirect : Bool
  get_item : Item
  get_redirect : Item
  get_index : Nat
deriving DecidableEq

/-- Models a `zim::Archive` engine value by the results of a representative
set of its forwarded accessors, including two that take an argument. -/
structure Archive where
  get_entry_by_path : String → Entry
  has_entry_by_path : String → Bool
  get_entry_count : Nat
  get_checksum : String

end zim

/-- Models the `Wrapper<Base>` template (libwrapper.h): a default-constructible
handle holding a heap pointer to a `Base` instance; the null pointer of the
default-constructed state is `Option.none`. -/
structure Wrapper (Base : Type) where
  mp_base : Option Base
deriving DecidableEq

/-- Models `Wrapper(const Base&)` / `Wrapper(Base&&)`: heap-allocate the value. -/
def Wrapper.wrap {Base : Type} (base : Base) : Wrapper Base :=
  ⟨Option.some base⟩

/-- Models the default constructor `Wrapper()`: a null-state wrapper. -/
def Wrapper.empty {Base : Type} : Wrapper Base :=
  ⟨Option.none⟩

/-- Models the body generated by `FORWARD(OUT, NAME)`:
`return mp_base->NAME(std::forward<ARGS>(args)...);`. `f` is the wrapped
instance's own operation with the call's arguments already applied, and
`conv` is the implicit conversion of the native return value to the declared
`OUT` type (the identity when `OUT` is the native type, `Wrapper.wrap` when
`OUT` re-wraps a non-default-constructible value). Dereferencing the null
pointer of a default-constructed wrapper is undefined behaviour in the
source; definedness is modelled by `Option`. -/
def Wrapper.forward {Base β γ : Type} (conv : β → γ) (f : Base → β)
    (w : Wrapper Base) : Option γ :=
  w.mp_base.map (fun b => conv (f b))

namespace wrapper

/-- Models `wrapper::Blob` (libwrapper.h). -/
abbrev Blob := Wrapper zim.Blob

/-- Models `wrapper::Item` (libwrapper.h). -/
abbrev Item := Wrapper zim.Item

/-- Models `wrapper::Entry` (libwrapper.h). -/
abbrev Entry := Wrapper zim.Entry

/-- Models `wrapper::Archive` (libwrapper.h). -/
abbrev Archive := Wrapper zim.Archive

/-- FORWARD(const char *, data) on `wrapper::Blob`. -/
def Blob.data (w : Blob) : Option Nat :=
  Wrapper.forward id zim.Blob.dataAddr w

/-- FORWARD(zim::size_type, size) on `wrapper::Blob`. -/
def Blob.size (w : Blob) : Option Nat :=
  Wrapper.forward id zim.Blob.size w

/-- FORWARD(std::string, get_title) on `wrapper::Item`. -/
def Item.get_title (w : Item) : Option String :=
  Wrapper.forward id zim.Item.get_title w

/-- FORWARD(std::string, get_path) on `wrapper::Item`. -/
def Item.get_path (w : Item) : Option String :=
  Wrapper.forward id zim.Item.get_path w

/-- FORWARD(std::string, get_mimetype) on `wrapper::Item`. -/
def Item.get_mimetype (w : Item) : Option String :=
  Wrapper.forward id zim.Item.get_mimetype w

/-- FORWARD(wrapper::Blob, get_data) on `wrapper::Item`: the native
`zim::Blob` return value is implicitly converted to `wrapper::Blob`,
i.e. re-wrapped. -/
def Item.get_data (w : Item) : Option Blob :=
  Wrapper.forward Wrapper.wrap zim.Item.get_data w

/-- FORWARD(zim::size_type, get_size) on `wrapper::Item`. -/
def Item.get_size (w : Item) : Option Nat :=
  Wrapper.forward id zim.Item.get_size w

/-- FORWARD(zim::entry_index_type, get_index) on `wrapper::Item`. -/
def Item.get_index (w : Item) : Option Nat :=
  Wrapper.forward id zim.Item.get_index w

/-- FORWARD(std::string, get_title) on `wrapper::Entry`. -/
def Entry.get_title (w : Entry) : Option String :=
  Wrapper.forward id zim.Entry.get_title w

/-- FORWARD(std::string, get_path) on `wrapper::Entry`. -/
def Entry.get_path (w : Entry) : Option String :=
  Wrapper.forward id zim.Entry.get_path w

/-- FORWARD(bool, is_redirect) on `wrapper::Entry`. -/
def Entry.is_redirect (w : Entry) : Option Bool :=
  Wrapper.forward id zim.Entry.is_redirect w

/-- FORWARD(wrapper::Item, get_item) on `wrapper::Entry`: the native
`zim::Item` return value is re-wrapped. -/
def Entry.get_item (w : Entry) : Option Item :=
  Wrapper.forward Wrapper.wrap zim.Entry.get_item w

/-- FORWARD(wrapper::Item, get_redirect) on `wrapper::Entry`. -/
def Entry.get_redirect (w : Entry) : Option Item :=
  Wrapper.forward Wrapper.wrap zim.Entry.get_redirect w

/-- FORWARD(zim::entry_index_type, get_index) on `wrapper::Entry`. -/
def Entry.get_index (w : Entry) : Option Nat :=
  Wrapper.forward id zim.Entry.get_index w

/-- FORWARD(wrapper::Entry, get_entry_by_path) on `wrapper::Archive`: a
forwarded accessor taking an argument, with the native return re-wrapped. -/
def Archive.get_entry_by_path (w : Archive) (path : String) : Option Entry :=
  Wrapper.forward Wrapper.wrap (fun a => zim.Archive.get_entry_by_path a path) w

/-- FORWARD(bool, has_entry_by_path) on `wrapper::Archive`. -/
def Archive.has_entry_by_path (w : Archive) (path : String) : Option Bool :=
  Wrapper.forward id (fun a => zim.Archive.has_entry_by_path a path) w

/-- FORWARD(zim::size_type, get_entry_count) on `wrapper::Archive`. -/
def Archive.get_entry_count (w : Archive) : Option Nat :=
  Wrapper.forward id zim.Archive.get_entry_count w

/-- FORWARD(std::string, get_checksum) on `wrapper::Archive`. -/
def Archive.get_checksum (w : Archive) : Option String :=
  Wrapper.forward id zim.Archive.get_checksum w

end wrapper

/-
  ObjWrapper lifetime discipline (libwrapper.cpp) and the
  ZimArticleWrapper constructor (lib.cxx).

  For the lifetime claims a Python object is its identity, and the world
  state is the reference count of every object. The GIL acquire/release
  around the count operations orders them but does not change the counts,
  so it is not part of the state.
-/

/-- Identity of a Python object (what a non-null `PyObject*` points to). -/
abbrev PyObjId := Nat

/-- The reference count of every Python object. -/
abbrev RefCounts := PyObjId → Nat

/-- Models `Py_XINCREF`: increment the count of the pointee, no-op on a null
pointer. -/
def Py_XINCREF (obj : Option PyObjId) (s : RefCounts) : RefCounts :=
  match obj with
  | Option.none => s
  | Option.some i => fun j => if j = i then s j + 1 else s j

/-- Models `Py_XDECREF`: decrement the count of the pointee, no-op on a null
pointer. -/
def Py_XDECREF (obj : Option PyObjId) (s : RefCounts) : RefCounts :=
  match obj with
  | Option.none => s
  | Option.some i => fun j => if j = i then s j - 1 else s j

/-- Models the `ObjWrapper` handle (libwrapper.h): a possibly-null owned
`PyObject*`. -/
structure ObjWrapper where
  m_obj : Option PyObjId
deriving DecidableEq

/-- Models `ObjWrapper::ObjWrapper(PyObject*)` (libwrapper.cpp): `m_obj` is
initialised to the argument; if `import_libzim()` fails the constructor
throws `runtime_error("Error executing import_libzim")` before the
`Py_XINCREF` is reached (so no reference is acquired and the count state is
untouched); otherwise it increments the reference count and the handle is
live. `importOk` is whether the dynamic-runtime module linkage
initialisation succeeds. -/
def ObjWrapper.construct (importOk : Bool) (obj : Option PyObjId)
    (s : RefCounts) : Except String ObjWrapper × RefCounts :=
  if importOk then (Except.ok ⟨obj⟩, Py_XINCREF obj s)
  else (Except.error "Error executing import_libzim", s)

/-- Models `ObjWrapper::~ObjWrapper` (libwrapper.cpp): if `m_obj` is
non-null, acquire the GIL and `Py_XDECREF` it; a null (moved-from) handle is
a no-op. -/
def ObjWrapper.destroy (w : ObjWrapper) (s : RefCounts) : RefCounts :=
  match w.m_obj with
  | Option.none => s
  | Option.some i => Py_XDECREF (Option.some i) s

/-- Models `ObjWrapper::ObjWrapper(ObjWrapper&&)` (libwrapper.cpp): the new
handle takes the source's pointer and the source's pointer is nulled.
Returns (new handle, moved-from source). -/
def ObjWrapper.moveCtor (other : ObjWrapper) : ObjWrapper × ObjWrapper :=
  (⟨other.m_obj⟩, ⟨Option.none⟩)

/-- Models `ObjWrapper::operator=(ObjWrapper&&)` (libwrapper.cpp):
`m_obj = other.m_obj; other.m_obj = nullptr;` — a plain pointer transfer
performing no reference-count operation at all (in particular the reference
the target previously held is not released here). Returns
(new target, new source, count state). -/
def ObjWrapper.moveAssign (a b : ObjWrapper) (s : RefCounts) :
    ObjWrapper × ObjWrapper × RefCounts :=
  (⟨b.m_obj⟩, ⟨Option.none⟩, s)

/-- Models `ZimArticleWrapper::ZimArticleWrapper(PyObject*)` (lib.cxx): the
same discipline as `ObjWrapper::ObjWrapper` — throw
`runtime_error("Error executing import_libzim")` when
`import_libzim__wrapper()` fails (no reference acquired), else
`Py_XINCREF(m_obj)`. The constructed handle is represented by its held
pointer. -/
def ZimArticleWrapper.construct (importOk : Bool) (obj : Option PyObjId)
    (s : RefCounts) : Except String (Option PyObjId) × RefCounts :=
  if importOk then (Except.ok obj, Py_XINCREF obj s)
  else (Except.error "Error executing import_libzim", s)

/-- One construct-then-destroy cycle of an `ObjWrapper` around object `o`:
if construction throws there is no handle and nothing is destroyed. -/
def cycleOnce (importOk : Bool) (o : PyObjId) (s : RefCounts) : RefCounts :=
  match ObjWrapper.construct importOk (Option.some o) s with
  | (Except.ok w, s2) => ObjWrapper.destroy w s2
  | (Except.error _, s2) => s2

/-- `n` successive construct-then-destroy cycles around object `o` (with the
module linkage initialised). -/
def cycleN (o : PyObjId) : Nat → RefCounts → RefCounts
  | 0, s => s
  | n + 1, s => cycleN o n (cycleOnce true o s)

/-- A chain of `n` successive move constructions starting from handle `w`:
returns the final live handle and the list of moved-from handles produced
along the way. -/
def moveChain (w : ObjWrapper) : Nat → ObjWrapper × List ObjWrapper
  | 0 => (w, [])
  | n + 1 =>
      let prev := moveChain w n
      let m := ObjWrapper.moveCtor prev.1
      (m.1, m.2 :: prev.2)

/-- Destroys every handle of a list, in order. -/
def destroyAll (ws : List ObjWrapper) (s : RefCounts) : RefCounts :=
  ws.foldl (fun s2 w => ObjWrapper.destroy w s2) s

/-
  Theorems.
-/

/-- C1 counterexample: `comp_from_int 2` is the fallback `None`, not `Zstd`
— the source's switch has no `case 2`, so the integer 2 falls into the
`default` branch. -/
theorem comp_from_int_two_maps_to_none :
    comp_from_int 2 = Compression.none ∧ comp_from_int 2 ≠ Compression.zstd := by
  decide

/-- C1 (amended): `comp_from_int` maps every integer deterministically and
totally — 0 to None, 1 to Zstd, and every other integer (2 included) to the
fallback None rather than failing. -/
theorem comp_from_int_table (n : Int) :
    comp_from_int n = if n = 1 then Compression.zstd else Compression.none := by
  by_cases h0 : n = 0 <;> simp [comp_from_int, h0]

/-- C2: when the held dynamic object is non-null and its invoked method
raises a Python error whose reported message is `m` (a non-empty error
out-parameter), both the typed call dispatcher `call_method_on_obj` and the
older `ZimArticleWrapper::callCythonReturnString` fail with an exception
carrying exactly `m`, unmodified — never a generic failure and never
swallowed. -/
theorem dispatcher_propagates_error_message (σ α : Type) (b : PyBehavior σ α)
    (bs : PyBehavior σ String) (methodName : String) (st : σ) (m : String)
    (hb : (b methodName st).1.2 = m) (hbs : (bs methodName st).1.2 = m)
    (hm : m ≠ "") :
    call_method_on_obj (Option.some b) methodName st
      = (Except.error m, (b methodName st).2)
    ∧ ZimArticleWrapper.callCythonReturnString ⟨Option.some bs⟩ methodName st
      = (Except.error m, (bs methodName st).2) := by
  constructor
  · simp only [call_method_on_obj]
    rw [hb]
    simp [hm]
  · simp only [ZimArticleWrapper.callCythonReturnString]
    rw [hbs]
    simp [hm]

/-- C2 witness: a dynamic object whose method reports the error message
"boom" makes both dispatchers fail with exactly "boom". -/
theorem dispatcher_propagates_error_message_witness :
    call_method_on_obj
        (Option.some (fun (_ : String) (st : Nat) => ((7, "boom"), st)))
        "get_title" 0
      = (Except.error "boom", 0)
    ∧ ZimArticleWrapper.callCythonReturnString
        ⟨Option.some (fun (_ : String) (st : Nat) => (("t", "boom"), st))⟩
        "get_title" 0
      = (Except.error "boom", 0) :=
  dispatcher_propagates_error_message Nat Nat
    (fun _ st => ((7, "boom"), st)) (fun _ st => (("t", "boom"), st))
    "get_title" 0 "boom" rfl rfl (by decide)

/-- C3: `WriterItemWrapper::getIndexData` returns the engine's base-class
default index data, without raising, whenever the dynamic object lacks the
`get_indexdata` attribute or that attribute is the None sentinel; in every
other case it dispatches `get_indexdata` through the typed call dispatcher. -/
theorem getIndexData_missing_capability (σ : Type) (obj : PyWriterItemObj σ)
    (st : σ) :
    (obj.obj_has_attribute "get_indexdata" = false →
       WriterItemWrapper.getIndexData obj st
         = (Except.ok IndexDataPtr.engineDefault, st))
    ∧ (obj.method_is_none "get_indexdata" = true →
       WriterItemWrapper.getIndexData obj st
         = (Except.ok IndexDataPtr.engineDefault, st))
    ∧ (obj.obj_has_attribute "get_indexdata" = true →
       obj.method_is_none "get_indexdata" = false →
       WriterItemWrapper.getIndexData obj st
         = call_method_on_obj (Option.some obj.indexdata_cy_call_fct)
             "get_indexdata" st) := by
  refine ⟨?_, ?_, ?_⟩
  · intro h
    simp [WriterItemWrapper.getIndexData, h]
  · intro h
    cases hA : obj.obj_has_attribute "get_indexdata" <;>
      simp [WriterItemWrapper.getIndexData, hA, h]
  · intro hA hN
    simp [WriterItemWrapper.getIndexData, hA, hN]

/-- C3 witness: three concrete dynamic objects — one without the
`get_indexdata` attribute, one whose `get_indexdata` is the None sentinel,
and one with a real `get_indexdata` — exercise each branch. -/
theorem getIndexData_missing_capability_witness :
    WriterItemWrapper.getIndexData
        (σ := Nat)
        { obj_has_attribute := fun _ => false
          method_is_none := fun _ => false
          indexdata_cy_call_fct := fun _ st => ((IndexDataPtr.fromPy 5, ""), st) } 0
      = (Except.ok IndexDataPtr.engineDefault, 0)
    ∧ WriterItemWrapper.getIndexData
        (σ := Nat)
        { obj_has_attribute := fun _ => true
          method_is_none := fun _ => true
          indexdata_cy_call_fct := fun _ st => ((IndexDataPtr.fromPy 5, ""), st) } 0
      = (Except.ok IndexDataPtr.engineDefault, 0)
    ∧ WriterItemWrapper.getIndexData
        (σ := Nat)
        { obj_has_attribute := fun _ => true
          method_is_none := fun _ => false
          indexdata_cy_call_fct := fun _ st => ((IndexDataPtr.fromPy 5, ""), st) } 0
      = call_method_on_obj
          (Option.some (fun (_ : String) (st : Nat) => ((IndexDataPtr.fromPy 5, ""), st)))
          "get_indexdata" 0 :=
  ⟨(getIndexData_missing_capability Nat
      { obj_has_attribute := fun _ => false
        method_is_none := fun _ => false
        indexdata_cy_call_fct := fun _ st => ((IndexDataPtr.fromPy 5, ""), st) } 0).1 rfl,
   (getIndexData_missing_capability Nat
      { obj_has_attribute := fun _ => true
        method_is_none := fun _ => true
        indexdata_cy_call_fct := fun _ st => ((IndexDataPtr.fromPy 5, ""), st) } 0).2.1 rfl,
   (getIndexData_missing_capability Nat
      { obj_has_attribute := fun _ => true
        method_is_none := fun _ => false
        indexdata_cy_call_fct := fun _ st => ((IndexDataPtr.fromPy 5, ""), st) } 0).2.2 rfl rfl⟩

/-- C4: for every return type and every method name, a dispatcher call on a
null handle fails with the exception message "Python object not set" and
leaves the dynamic object's state untouched (no dynamic dispatch happens);
on a non-null handle the result is exactly that of one invocation of the
held object's method, marshalled per the empty-error protocol. Both
`call_method_on_obj` and `ZimArticleWrapper::callCythonReturnString` obey
this. -/
theorem dispatcher_null_handle_unbound (σ α : Type) (methodName : String)
    (st : σ) :
    (call_method_on_obj (Option.none : Option (PyBehavior σ α)) methodName st
       = (Except.error "Python object not set", st))
    ∧ (∀ b : PyBehavior σ α,
         call_method_on_obj (Option.some b) methodName st
           = if (b methodName st).1.2 = ""
             then (Except.ok (b methodName st).1.1, (b methodName st).2)
             else (Except.error (b methodName st).1.2, (b methodName st).2))
    ∧ (ZimArticleWrapper.callCythonReturnString ⟨Option.none⟩ methodName st
       = (Except.error "Python object not set", st))
    ∧ (∀ bs : PyBehavior σ String,
         ZimArticleWrapper.callCythonReturnString ⟨Option.some bs⟩ methodName st
           = if (bs methodName st).1.2 = ""
             then (Except.ok (bs methodName st).1.1, (bs methodName st).2)
             else (Except.error (bs methodName st).1.2, (bs methodName st).2)) :=
  ⟨rfl, fun _ => rfl, rfl, fun _ => rfl⟩

/-- C5: a FORWARD-generated accessor, called on a wrapper constructed from a
native value `x`, returns exactly what the identically named operation on `x`
itself returns — generically for every wrapped type, every accessor and any
arguments (already applied inside `f`), and concretely for the named
instances, with non-default-constructible return values re-wrapped
(`Entry::get_item` yields a wrapped `Item`, `Item::get_data` a wrapped
`Blob`). The embedding is pure, so the delegated call is the only effect. -/
theorem forwarded_accessors_delegate (Base β γ : Type) (conv : β → γ)
    (f : Base → β) (x : Base) (e : zim.Entry) (it : zim.Item) (bl : zim.Blob)
    (a : zim.Archive) (p : String) :
    Wrapper.forward conv f (Wrapper.wrap x) = Option.some (conv (f x))
    ∧ wrapper.Entry.get_title (Wrapper.wrap e) = Option.some e.get_title
    ∧ wrapper.Entry.get_path (Wrapper.wrap e) = Option.some e.get_path
    ∧ wrapper.Entry.is_redirect (Wrapper.wrap e) = Option.some e.is_redirect
    ∧ wrapper.Entry.get_item (Wrapper.wrap e)
        = Option.some (Wrapper.wrap e.get_item)
    ∧ wrapper.Entry.get_redirect (Wrapper.wrap e)
        = Option.some (Wrapper.wrap e.get_redirect)
    ∧ wrapper.Entry.get_index (Wrapper.wrap e) = Option.some e.get_index
    ∧ wrapper.Item.get_title (Wrapper.wrap it) = Option.some it.get_title
    ∧ wrapper.Item.get_path (Wrapper.wrap it) = Option.some it.get_path
    ∧ wrapper.Item.get_mimetype (Wrapper.wrap it) = Option.some it.get_mimetype
    ∧ wrapper.Item.get_data (Wrapper.wrap it)
        = Option.some (Wrapper.wrap it.get_data)
    ∧ wrapper.Item.get_size (Wrapper.wrap it) = Option.some it.get_size
    ∧ wrapper.Item.get_index (Wrapper.wrap it) = Option.some it.get_index
    ∧ wrapper.Blob.data (Wrapper.wrap bl) = Option.some bl.dataAddr
    ∧ wrapper.Blob.size (Wrapper.wrap bl) = Option.some bl.size
    ∧ wrapper.Archive.get_entry_by_path (Wrapper.wrap a) p
        = Option.some (Wrapper.wrap (a.get_entry_by_path p))
    ∧ wrapper.Archive.has_entry_by_path (Wrapper.wrap a) p
        = Option.some (a.has_entry_by_path p)
    ∧ wrapper.Archive.get_entry_count (Wrapper.wrap a)
        = Option.some a.get_entry_count
    ∧ wrapper.Archive.get_checksum (Wrapper.wrap a)
        = Option.some a.get_checksum :=
  ⟨rfl, rfl, rfl, rfl, rfl, rfl, rfl, rfl, rfl, rfl, rfl, rfl, rfl, rfl, rfl,
   rfl, rfl, rfl, rfl⟩

/-- C6: the content-provider adapter forwards `get_size` and `feed` verbatim
with no buffering or re-ordering — over any dynamic object yielding a chunk
list, the k-th `feed()` call returns exactly the k-th chunk (and advances the
object by one); concretely, over the object yielding "ab", "cd", "" with
`get_size` 4, three `feed()` calls yield exactly "ab", then "cd", then the
empty end-of-stream chunk, for 4 bytes total. -/
theorem content_provider_feed_order (chunks : List String) (size k : Nat) :
    ContentProviderWrapper.feed
        ⟨Option.some (chunkProvider chunks size)⟩ k
      = (Except.ok (chunks.getD k ""), k + 1)
    ∧ ContentProviderWrapper.getSize
        ⟨Option.some (chunkProvider chunks size)⟩ k
      = (Except.ok size, k)
    ∧ feedRun ⟨Option.some (chunkProvider ["ab", "cd", ""] 4)⟩ 3 0
      = ([Except.ok "ab", Except.ok "cd", Except.ok ""], 3)
    ∧ ContentProviderWrapper.getSize
        ⟨Option.some (chunkProvider ["ab", "cd", ""] 4)⟩ 0
      = (Except.ok 4, 0)
    ∧ "ab".length + "cd".length + "".length = 4 :=
  ⟨rfl, rfl, rfl, rfl, rfl⟩

/-- One construct-then-destroy cycle of a live `ObjWrapper` restores the
reference-count state exactly. -/
theorem cycleOnce_true_id (o : PyObjId) (s : RefCounts) :
    cycleOnce true o s = s := by
  funext j
  simp only [cycleOnce, ObjWrapper.construct, if_pos, ObjWrapper.destroy,
    Py_XINCREF, Py_XDECREF]
  by_cases h : j = o <;> simp [h]

/-- Any number of construct-then-destroy cycles restores the
reference-count state exactly. -/
theorem cycleN_id (o : PyObjId) : ∀ (n : Nat) (s : RefCounts),
    cycleN o n s = s
  | 0, _ => rfl
  | n + 1, s => by
      show cycleN o n (cycleOnce true o s) = s
      rw [cycleOnce_true_id]
      exact cycleN_id o n s

/-- C7: constructing an `ObjWrapper` around object `o` (with the module
linkage initialised) increments `o`'s reference count by exactly one and
touches no other count; destroying a non-moved-from handle decrements it by
exactly one; hence `n` successive construct-then-destroy cycles leave every
reference count exactly as it was. -/
theorem objwrapper_refcount_roundtrip (o : PyObjId) (s : RefCounts)
    (n : Nat) (j : PyObjId) :
    ((ObjWrapper.construct true (Option.some o) s).2 j
       = if j = o then s j + 1 else s j)
    ∧ (ObjWrapper.destroy ⟨Option.some o⟩ s j = if j = o then s j - 1 else s j)
    ∧ cycleN o n s j = s j :=
  ⟨rfl, rfl, by rw [cycleN_id]⟩

/-- A chain of move constructions keeps the original pointer in the live
handle and leaves behind only nulled moved-from handles. -/
theorem moveChain_eq (w : ObjWrapper) : ∀ n : Nat,
    moveChain w n = (⟨w.m_obj⟩, List.replicate n ⟨Option.none⟩)
  | 0 => rfl
  | n + 1 => by
      show (let prev := moveChain w n
            let m := ObjWrapper.moveCtor prev.1
            (m.1, m.2 :: prev.2))
        = (⟨w.m_obj⟩, List.replicate (n + 1) ⟨Option.none⟩)
      rw [moveChain_eq w n]
      rfl

/-- Destroying any number of moved-from (nulled) handles is a no-op on the
reference-count state. -/
theorem destroyAll_replicate_null : ∀ (n : Nat) (s : RefCounts),
    destroyAll (List.replicate n ⟨Option.none⟩) s = s
  | 0, _ => rfl
  | n + 1, s => destroyAll_replicate_null n s

/-- C8: moving an `ObjWrapper` transfers the pointer and nulls the source, so
destroying a moved-from handle is a no-op on every reference count; for any
number `n` of successive moves, destroying all `n` moved-from handles changes
nothing, and destroying them together with the final live handle has exactly
the effect of one destruction of the original handle — the held object is
released at most once. -/
theorem objwrapper_move_no_double_release (w : ObjWrapper) (n : Nat)
    (s : RefCounts) :
    ObjWrapper.moveCtor w = (⟨w.m_obj⟩, ⟨Option.none⟩)
    ∧ ObjWrapper.destroy (ObjWrapper.moveCtor w).2 s = s
    ∧ moveChain w n = (⟨w.m_obj⟩, List.replicate n ⟨Option.none⟩)
    ∧ destroyAll (moveChain w n).2 s = s
    ∧ ObjWrapper.destroy (moveChain w n).1 (destroyAll (moveChain w n).2 s)
        = ObjWrapper.destroy w s := by
  refine ⟨rfl, rfl, moveChain_eq w n, ?_, ?_⟩
  · rw [moveChain_eq w n]
    exact destroyAll_replicate_null n s
  · rw [moveChain_eq w n]
    rw [destroyAll_replicate_null n s]

/-- C9: constructing an `ObjWrapper` or a `ZimArticleWrapper` when the
dynamic-runtime module linkage initialisation fails throws exactly
"Error executing import_libzim" and acquires no reference (the count state is
returned untouched); when it succeeds, the construction succeeds holding the
supplied object and acquires exactly one reference on it. -/
theorem construct_runtime_not_ready (obj : Option PyObjId) (o : PyObjId)
    (s : RefCounts) (j : PyObjId) :
    ObjWrapper.construct false obj s
      = (Except.error "Error executing import_libzim", s)
    ∧ ZimArticleWrapper.construct false obj s
      = (Except.error "Error executing import_libzim", s)
    ∧ ObjWrapper.construct true obj s = (Except.ok ⟨obj⟩, Py_XINCREF obj s)
    ∧ ZimArticleWrapper.construct true obj s
      = (Except.ok obj, Py_XINCREF obj s)
    ∧ Py_XINCREF (Option.some o) s j = (if j = o then s j + 1 else s j)
    ∧ Py_XINCREF Option.none s j = s j :=
  ⟨rfl, rfl, rfl, rfl, rfl, rfl⟩

/-- C10: move-assigning `b` into a handle `a` that currently holds a non-null
object `o1` sets `a`'s pointer to `b`'s pointer, nulls `b`, and performs no
reference-count operation at all — in particular `o1`'s count is unchanged at
the moment of assignment (the reference `a` previously held is not released
by the assignment). -/
theorem move_assign_frame (a b : ObjWrapper) (o1 : PyObjId) (s : RefCounts)
    (h : a.m_obj = Option.some o1) :
    (ObjWrapper.moveAssign a b s).1 = ⟨b.m_obj⟩
    ∧ (ObjWrapper.moveAssign a b s).2.1 = ⟨Option.none⟩
    ∧ (ObjWrapper.moveAssign a b s).2.2 = s
    ∧ (ObjWrapper.moveAssign a b s).2.2 o1 = s o1 :=
  ⟨rfl, rfl, rfl, rfl⟩

/-- C10 witness: move-assigning a handle on object 1 into a handle holding
object 0, with every count at 2, transfers the pointer, nulls the source, and
leaves object 0's count at 2. -/
theorem move_assign_frame_witness :
    (ObjWrapper.moveAssign ⟨Option.some 0⟩ ⟨Option.some 1⟩ (fun _ => 2)).1
      = ⟨Option.some 1⟩
    ∧ (ObjWrapper.moveAssign ⟨Option.some 0⟩ ⟨Option.some 1⟩ (fun _ => 2)).2.1
      = ⟨Option.none⟩
    ∧ (ObjWrapper.moveAssign ⟨Option.some 0⟩ ⟨Option.some 1⟩ (fun _ => 2)).2.2 0
      = 2 :=
  ⟨(move_assign_frame ⟨Option.some 0⟩ ⟨Option.some 1⟩ 0 (fun _ => 2) rfl).1,
   (move_assign_frame ⟨Option.some 0⟩ ⟨Option.some 1⟩ 0 (fun _ => 2) rfl).2.1,
   (move_assign_frame ⟨Option.some 0⟩ ⟨Option.some 1⟩ 0 (fun _ => 2) rfl).2.2.2⟩

end Libzim
